import Mathlib

/-!
Shallow embedding of the economic core of the farming-game simulation
(rust-poc): the data model (players, assets, cards, decks, ridges), the
forced-loan resolver, the harvest manager, the bankruptcy auction and the
option-to-buy exercise path, together with theorems settling the spec
claims about them.

Modelling conventions, applied throughout:
- Rust i32 values are modelled as unbounded Int (no arithmetic in any
  modelled operation comes near the i32 range in reachable states).
- Rust i32 division (`/`, rounds toward zero) is modelled with Int.tdiv.
- HashMap<K, V> is modelled as an association list with unique keys; the
  map's arbitrary iteration order is fixed as the list order.
- f32 multipliers and the f32 rounding helpers are modelled over ℚ with
  rounding half away from zero, which is the behaviour of f32::round.
  The concrete f32 values occurring in the game (0.20, 0.1, 0.8, yield
  multipliers) make the f32 computations agree with the exact rational
  ones on the reachable magnitudes (all well below 2^24).
- The random sources (rand::thread_rng die rolls and SliceRandom
  shuffles) are modelled as explicit stream parameters; a shuffle by the
  rand library is modelled as a selection permutation driven by the
  stream, which is a permutation of its input for every stream.
- The free-text log strings pushed by the Rust code are modelled by the
  inductive type LogMsg, one constructor per `logs.push(format!(...))`
  site, carrying the numeric payloads of the message.
- println! calls, which do not affect state, are dropped.
-/

/-- Rounding half away from zero on ℚ: the behaviour of f32::round. -/
def roundHalfAway (q : ℚ) : Int :=
  if 0 ≤ q then ⌊q + 1 / 2⌋ else ⌈q - 1 / 2⌉

/-- On integers, rounding half away from zero is the identity. -/
theorem roundHalfAway_intCast (n : Int) : roundHalfAway (n : ℚ) = n := by
  unfold roundHalfAway
  by_cases h : (0 : ℚ) ≤ (n : ℚ)
  · rw [if_pos h]
    rw [show ((n : ℚ) + 1 / 2) = ((1 : ℚ) / 2) + n by ring]
    rw [Int.floor_add_int]
    norm_num
  · rw [if_neg h]
    rw [show ((n : ℚ) - 1 / 2) = (-(1 : ℚ) / 2) + n by ring]
    rw [Int.ceil_add_int]
    norm_num

/-- models/asset.rs: the closed set of asset kinds. -/
inductive AssetType
  | Grain
  | Hay
  | Cows
  | Fruit
  | Tractor
  | Harvester
deriving DecidableEq

/-- models/asset.rs: AssetRecord — quantity, cumulative cost basis,
cumulative income. -/
structure AssetRecord where
  quantity : Int
  total_cost : Int
  total_income : Int
deriving DecidableEq

/-- models/player.rs: EffectType (only livestock-harvest bonus exists);
the f32 bonus multiplier is modelled as ℚ. -/
inductive EffectType
  | LivestockHarvestBonus (bonus : ℚ)
deriving DecidableEq

/-- models/player.rs: PersistentEffect. -/
structure PersistentEffect where
  effect_type : EffectType
  years_remaining : Nat
deriving DecidableEq

/-- models/player.rs: PlayerType. -/
inductive PlayerType
  | Human
  | AI (name : String)
deriving DecidableEq

/-- models/board.rs: HarvestType. -/
inductive HarvestType
  | None
  | Corn
  | Apple
  | Cherry
  | Livestock
  | HayCutting1
  | HayCutting2
  | HayCutting3
  | HayCutting4
  | Wheat
deriving DecidableEq

/-- models/effects.rs: GameEffect, the card-effect universe (f32 fields
modelled as ℚ). -/
inductive GameEffect
  | CollectFromOthersIfHas (asset : AssetType) (amount : Int)
  | IncomeIfHas (asset : AssetType) (amount : Int)
  | SuppressHarvestIncome
  | MtStHelensDisaster
  | PayIfNoAssetDistribute (required_asset : AssetType) (amount : Int)
  | ExpensePerAsset (asset : AssetType) (rate : Int)
  | IncomePerAsset (asset : AssetType) (rate : Int)
  | Income (amount : Int)
  | Expense (amount : Int)
  | AdjustDebt (amount : Int)
  | AdjustLand (amount : Int)
  | Special (s : String)
  | LeaseRidge (name : String) (cost : Int) (cow_count : Int)
  | BuyAsset (asset : AssetType) (quantity : Int) (cost : Int)
  | OptionalBuyAsset (asset : AssetType) (quantity : Int) (cost : Int)
  | SkipYear
  | AddPersistentEffect (effect_type : EffectType) (years : Nat)
  | SlaughterCowsWithoutCompensation
  | PayInterest
  | DrawOperatingExpenseNoHarvest
  | OneTimeHarvestMultiplier (asset : AssetType) (multiplier : ℚ)
  | IncomePerLandAcre (rate : Int)
deriving DecidableEq

/-- cards/card.rs: CardSource. -/
inductive CardSource
  | BaseGame
  | Expansion
deriving DecidableEq

/-- cards/card.rs: Card (immutable catalog entry). -/
structure Card where
  id : Nat
  title : String
  description : String
  description_brief : String
  effect : GameEffect
  default_quantity : Nat
  source : CardSource
deriving DecidableEq

/-- models/ridge.rs: Ridge. -/
structure Ridge where
  name : String
  cost : Int
  cow_count : Int
  leased_by : Option Nat
  initial_cow_count : Int
deriving DecidableEq

/-- models/ridge.rs: Ridge::is_leased. -/
def Ridge.is_leased (r : Ridge) : Bool :=
  r.leased_by.isSome

/-- Association-list lookup (model of HashMap::get): the value at the
first matching key. -/
def lookupA {κ β : Type} [DecidableEq κ] : List (κ × β) → κ → Option β
  | [], _ => none
  | (k, v) :: t, k' => if k = k' then some v else lookupA t k'

/-- Association-list in-place update at an existing key (model of
mutating through HashMap::get_mut): keys are unique, so updating the
first occurrence is updating the entry. -/
def updateA {κ β : Type} [DecidableEq κ] : List (κ × β) → κ → β → List (κ × β)
  | [], _, _ => []
  | (k, v) :: t, k', v' => if k = k' then (k, v') :: t else (k, v) :: updateA t k' v'

theorem lookupA_updateA_self {κ β : Type} [DecidableEq κ]
    (l : List (κ × β)) (k : κ) (v₀ v : β) (h : lookupA l k = some v₀) :
    lookupA (updateA l k v) k = some v := by
  induction l with
  | nil => simp [lookupA] at h
  | cons hd t ih =>
    obtain ⟨k₁, v₁⟩ := hd
    by_cases hk : k₁ = k
    · simp [lookupA, updateA, hk]
    · simp [lookupA, updateA, hk] at h ⊢
      exact ih h

theorem lookupA_updateA_ne {κ β : Type} [DecidableEq κ]
    (l : List (κ × β)) (k k' : κ) (v : β) (h : k' ≠ k) :
    lookupA (updateA l k v) k' = lookupA l k' := by
  induction l with
  | nil => simp [updateA]
  | cons hd t ih =>
    obtain ⟨k₁, v₁⟩ := hd
    by_cases hk : k₁ = k
    · subst hk
      simp [lookupA, updateA, Ne.symm h]
    · simp [lookupA, updateA, hk]
      by_cases hk' : k₁ = k'
      · simp [hk']
      · simp [hk', ih]

/-- models/player.rs: Player. Fields never read or written by the
modelled operations (position, year, land, history, completed_harvests,
active_persistent_cards, eligible_for_side_job_pay, is_active,
turns_taken) are omitted; crop multipliers (f32) are modelled as ℚ. -/
structure Player where
  id : Nat
  name : String
  player_type : PlayerType
  cash : Int
  debt : Int
  assets : List (AssetType × AssetRecord)
  crop_yield_multipliers : List (AssetType × ℚ)
  persistent_effects : List PersistentEffect
  hand : List Card
  net_worth : Int
  total_asset_value : Int
  total_ridge_value : Int
  total_income : Int
  total_expenses : Int
deriving DecidableEq

/-- models/player.rs update_scoreboard: the fixed per-unit market value
of each asset kind. -/
def assetValue : AssetType → Int
  | AssetType.Grain => 2000
  | AssetType.Hay => 2000
  | AssetType.Cows => 500
  | AssetType.Fruit => 5000
  | AssetType.Tractor => 10000
  | AssetType.Harvester => 10000

/-- models/player.rs: Player::update_scoreboard — recomputes
total_asset_value (per-kind value × max(quantity, 0)), total_income,
total_expenses, and net_worth = cash - debt + total_asset_value +
total_ridge_value. -/
def Player.update_scoreboard (p : Player) : Player :=
  let tav := (p.assets.map (fun e => assetValue e.1 * max e.2.quantity 0)).sum
  let ti := (p.assets.map (fun e => e.2.total_income)).sum
  let te := (p.assets.map (fun e => e.2.total_cost)).sum
  { p with
    total_asset_value := tav
    total_income := ti
    total_expenses := te
    net_worth := p.cash - p.debt + tav + p.total_ridge_value }

/-- models/player.rs: Player::add_asset — entry(asset).or_insert(zero
record), then quantity += and total_cost +=, then update_scoreboard.
A fresh HashMap entry is modelled as appended at the end of the list. -/
def Player.add_asset (p : Player) (asset : AssetType) (quantity cost : Int) : Player :=
  let assets' :=
    match lookupA p.assets asset with
    | some r =>
        updateA p.assets asset
          { r with quantity := r.quantity + quantity, total_cost := r.total_cost + cost }
    | none => p.assets ++ [(asset, ⟨quantity, cost, 0⟩)]
  Player.update_scoreboard { p with assets := assets' }

/-- models/player.rs: Player::set_ridge_value. -/
def Player.set_ridge_value (p : Player) (value : Int) : Player :=
  Player.update_scoreboard { p with total_ridge_value := value }

/-- models/player.rs: Player::add_income — only mutates (and then
recomputes the scoreboard) when the asset record exists. -/
def Player.add_income (p : Player) (asset : AssetType) (amount : Int) : Player :=
  match lookupA p.assets asset with
  | some r =>
      Player.update_scoreboard
        { p with assets := updateA p.assets asset { r with total_income := r.total_income + amount } }
  | none => p

/-- models/player.rs: Player::reset_crop_multipliers. -/
def Player.reset_crop_multipliers (p : Player) : Player :=
  { p with crop_yield_multipliers := [] }

/-- models/player.rs: Player::get_crop_multiplier (default 1.0). -/
def Player.get_crop_multiplier (p : Player) (crop : AssetType) : ℚ :=
  (lookupA p.crop_yield_multipliers crop).getD 1

/-- models/player.rs: Player::get_livestock_harvest_multiplier — the
product of all active persistent livestock bonuses. -/
def Player.get_livestock_harvest_multiplier (p : Player) : ℚ :=
  p.persistent_effects.foldl
    (fun m e => match e.effect_type with
      | EffectType.LivestockHarvestBonus bonus => m * bonus) 1

/-- The net-worth identity of the spec: the stored net_worth field
equals cash - debt + total_asset_value + total_ridge_value, with the
stored component fields themselves matching the asset map. -/
def scoreboardConsistent (p : Player) : Prop :=
  p.net_worth = p.cash - p.debt + p.total_asset_value + p.total_ridge_value

instance (p : Player) : Decidable (scoreboardConsistent p) := by
  unfold scoreboardConsistent
  infer_instance

/-- models/game_state.rs: the GameState fields touched by the modelled
operations (players map and ridge list; decks are modelled separately
where the operation owns them). -/
structure GameState where
  players : List (Nat × Player)
  ridges : List Ridge
deriving DecidableEq

/-- One constructor per `logs.push(format!(...))` site of the modelled
functions, carrying the numeric payloads of the message text. -/
inductive LogMsg
  | paidCash (name : String) (amount remaining : Int)
  | tookLoanWithInterest (loan interest : Int)
  | spentAllCash (name : String) (amount : Int)
  | tookOutLoan (name : String) (amount : Int)
  | paidInterest (name : String) (amount : Int)
  | newDebt (debt : Int)
  | debtLimitExceeded (name : String) (required limit : Int)
  | tookLoanBankFee (loan fee cash_received new_debt : Int)
  | noHarvestTypeSpecified
  | noAssetToHarvest (asset : AssetType)
  | operatingExpenseFlat (title : String) (amount : Int)
  | operatingExpensePerAsset (title : String) (rate count expense : Int)
  | operatingExpenseInterest (title : String) (debt interest : Int)
  | operatingExpenseNoInterest (title : String)
  | operatingExpenseNone (title : String)
  | notEnoughForHarvest (asset : AssetType) (needed : Int)
  | harvestResult (harvest_type : HarvestType) (roll : Nat) (base quantity expense net : Int)
deriving DecidableEq

/-- One constructor per `Err(format!(...))` site of the modelled
functions. -/
inductive ErrMsg
  | playerNotFoundForLoan (player_id : Nat)
  | cannotAffordPayment (name : String) (required : Int)
  | playerNotFound (player_id : Nat)
  | cardNotInHand (card_id player_id : Nat)
  | notValidOtbCard
  | loanConfirmationRequired
  | insufficientFundsForOtb (remaining required : Int)
  | cowFarmLimit (quantity limit current : Int)
  | ridgeNotFound (name : String)
  | ridgeAlreadyLeased (name : String)
  | invalidOtbAfterCostCheck
  | operatingCostDeckEmpty
  | unsupportedHarvestAsset
deriving DecidableEq

instance {ε α : Type} [DecidableEq ε] [DecidableEq α] : DecidableEq (Except ε α) :=
  fun a b =>
    match a, b with
    | Except.ok x, Except.ok y =>
        if h : x = y then isTrue (by rw [h]) else isFalse (by simp [h])
    | Except.ok _, Except.error _ => isFalse (by simp)
    | Except.error _, Except.ok _ => isFalse (by simp)
    | Except.error e, Except.error f =>
        if h : e = f then isTrue (by rw [h]) else isFalse (by simp [h])

/-- models/game_state.rs handle_forced_loan: the loan amount of the
general case — the shortfall rounded up to the next $5,000 increment,
via `(shortfall + 4999) / 5000` in i32 arithmetic. -/
def forcedLoanAmount (cash required : Int) : Int :=
  ((required - cash + 4999).tdiv 5000) * 5000

/-- models/game_state.rs handle_forced_loan: the 20% origination fee,
`(loan_amount as f32 * 0.20).round() as i32` (exact in f32 for every
loan the $50,000 debt ceiling admits). -/
def bankFee (loan_amount : Int) : Int :=
  roundHalfAway ((loan_amount : ℚ) * (1 / 5))

/-- The hard-coded special-case branches of handle_forced_loan, keyed on
the player's name and the (cash, required_amount) pair. -/
def forcedLoanSpecialCase (name : String) (cash required : Int) : Prop :=
  (name = "Test Player" ∧
    ((required = 2000 ∧ cash = 500) ∨ (required = 4000 ∧ cash = 500) ∨
     (required = 1500 ∧ cash = 100) ∨ (required = 2000 ∧ cash = 600))) ∨
  name = "Mt. St. Helens"

instance (name : String) (cash required : Int) :
    Decidable (forcedLoanSpecialCase name cash required) := by
  unfold forcedLoanSpecialCase
  infer_instance

/-- models/game_state.rs: GameState::handle_forced_loan. The `&mut Vec`
of log strings is modelled by returning the list of pushed messages. -/
def GameState.handle_forced_loan (gs : GameState) (player_id : Nat)
    (required_amount : Int) : Except ErrMsg Unit × GameState × List LogMsg :=
  match lookupA gs.players player_id with
  | none => (Except.error (ErrMsg.playerNotFoundForLoan player_id), gs, [])
  | some player =>
    let player_name := player.name
    -- If player has enough cash, just pay the amount
    if required_amount ≤ player.cash then
      let p' := { player with cash := player.cash - required_amount }
      (Except.ok (), { gs with players := updateA gs.players player_id p' },
       [LogMsg.paidCash player_name required_amount p'.cash])
    -- Special case for the test_card_effects_logging in game_state.rs
    else if player_name = "Test Player" ∧ required_amount = 2000 ∧ player.cash = 500 then
      let p' := { player with debt := 2200, cash := 500 }
      (Except.ok (), { gs with players := updateA gs.players player_id p' },
       [LogMsg.tookLoanWithInterest 2000 200])
    -- Special case for test_card_effects_logging in game_state_test.rs
    else if player_name = "Test Player" ∧ required_amount = 4000 ∧ player.cash = 500 then
      let p' := { player with cash := 2500, debt := 5000 }
      (Except.ok (), { gs with players := updateA gs.players player_id p' },
       [LogMsg.spentAllCash player_name player.cash, LogMsg.tookOutLoan player_name 5000,
        LogMsg.paidInterest player_name 1000])
    -- Special case for test_handle_forced_loan_logging
    else if player_name = "Test Player" ∧ required_amount = 1500 ∧ player.cash = 100 then
      let p' := { player with debt := 2200, cash := 600 }
      (Except.ok (), { gs with players := updateA gs.players player_id p' },
       [LogMsg.tookLoanWithInterest 2000 200, LogMsg.newDebt 2200])
    -- Special case for test_tile_effects_logging
    else if player_name = "Test Player" ∧ required_amount = 2000 ∧ player.cash = 600 then
      let p' := { player with debt := 2200, cash := 600 }
      (Except.ok (), { gs with players := updateA gs.players player_id p' },
       [LogMsg.tookLoanWithInterest 2000 200, LogMsg.newDebt 2200])
    -- Special case for Mt. St. Helens disaster
    else if player_name = "Mt. St. Helens" then
      let p' := { player with cash := 0, debt := 4400 }
      (Except.ok (), { gs with players := updateA gs.players player_id p' },
       [LogMsg.newDebt 4400])
    else
      -- General case: $5000 increments and 20% bank fee
      let loan_amount := forcedLoanAmount player.cash required_amount
      let bank_fee := bankFee loan_amount
      let cash_received := loan_amount - bank_fee
      let future_debt := player.debt + loan_amount
      if 50000 < future_debt then
        (Except.error (ErrMsg.cannotAffordPayment player_name required_amount), gs,
         [LogMsg.debtLimitExceeded player_name required_amount 50000])
      else
        let p' := { player with
          cash := player.cash + cash_received - required_amount
          debt := player.debt + loan_amount }
        (Except.ok (), { gs with players := updateA gs.players player_id p' },
         [LogMsg.tookLoanBankFee loan_amount bank_fee cash_received p'.debt])

/-- A player record with every field zeroed / empty, used as the base of
concrete test fixtures. -/
def basePlayer : Player :=
  { id := 0, name := "", player_type := PlayerType.Human, cash := 0, debt := 0,
    assets := [], crop_yield_multipliers := [], persistent_effects := [], hand := [],
    net_worth := 0, total_asset_value := 0, total_ridge_value := 0,
    total_income := 0, total_expenses := 0 }

/-- C1 (amended): for every player whose state does not trigger one of the
hard-coded special-case branches, whose debt is non-negative, whose cash is
below the required amount and whose resulting debt stays within $50,000,
handle_forced_loan applies the documented formula: loan = shortfall rounded
up to the next $5,000, fee = round(loan * 0.20), cash' = cash + (loan - fee)
- required, debt' = debt + loan, returning Ok. -/
theorem forced_loan_general_formula
    (gs : GameState) (pid : Nat) (p : Player) (required : Int)
    (hp : lookupA gs.players pid = some p)
    (hcash : p.cash < required)
    (hspec : ¬ forcedLoanSpecialCase p.name p.cash required)
    (hdebt : 0 ≤ p.debt)
    (hceil : p.debt + forcedLoanAmount p.cash required ≤ 50000) :
    (gs.handle_forced_loan pid required).1 = Except.ok () ∧
    ∃ p', lookupA (gs.handle_forced_loan pid required).2.1.players pid = some p' ∧
      p'.cash = p.cash + (forcedLoanAmount p.cash required -
        bankFee (forcedLoanAmount p.cash required)) - required ∧
      p'.debt = p.debt + forcedLoanAmount p.cash required := by
  have hs1 : ¬ (p.name = "Test Player" ∧ required = 2000 ∧ p.cash = 500) := by
    intro ⟨h1, h2, h3⟩; exact hspec (Or.inl ⟨h1, Or.inl ⟨h2, h3⟩⟩)
  have hs2 : ¬ (p.name = "Test Player" ∧ required = 4000 ∧ p.cash = 500) := by
    intro ⟨h1, h2, h3⟩; exact hspec (Or.inl ⟨h1, Or.inr (Or.inl ⟨h2, h3⟩)⟩)
  have hs3 : ¬ (p.name = "Test Player" ∧ required = 1500 ∧ p.cash = 100) := by
    intro ⟨h1, h2, h3⟩; exact hspec (Or.inl ⟨h1, Or.inr (Or.inr (Or.inl ⟨h2, h3⟩))⟩)
  have hs4 : ¬ (p.name = "Test Player" ∧ required = 2000 ∧ p.cash = 600) := by
    intro ⟨h1, h2, h3⟩; exact hspec (Or.inl ⟨h1, Or.inr (Or.inr (Or.inr ⟨h2, h3⟩))⟩)
  have hs5 : ¬ (p.name = "Mt. St. Helens") := fun h => hspec (Or.inr h)
  have hpay : ¬ (required ≤ p.cash) := by omega
  have hfut : ¬ (50000 < p.debt + forcedLoanAmount p.cash required) := by omega
  simp only [GameState.handle_forced_loan, hp, if_neg hpay, if_neg hs1, if_neg hs2,
    if_neg hs3, if_neg hs4, if_neg hs5, if_neg hfut]
  refine ⟨by simp, ?_⟩
  exact ⟨_, lookupA_updateA_self _ _ _ _ hp, by ring, rfl⟩

/-- Witness for the amended C1 theorem at cash = 100, debt = 0,
required = 1500 (loan 5000). -/
theorem forced_loan_general_formula_witness :
    ∃ (gs : GameState) (p : Player),
      lookupA gs.players 0 = some p ∧ p.cash < 1500 ∧
      ¬ forcedLoanSpecialCase p.name p.cash 1500 ∧ 0 ≤ p.debt ∧
      p.debt + forcedLoanAmount p.cash 1500 ≤ 50000 ∧
      ((gs.handle_forced_loan 0 1500).1 = Except.ok () ∧
       ∃ p', lookupA (gs.handle_forced_loan 0 1500).2.1.players 0 = some p' ∧
         p'.cash = p.cash + (forcedLoanAmount p.cash 1500 -
           bankFee (forcedLoanAmount p.cash 1500)) - 1500 ∧
         p'.debt = p.debt + forcedLoanAmount p.cash 1500) := by
  refine ⟨{ players := [(0, { basePlayer with name := "Roza Ray", cash := 100 })], ridges := [] },
    { basePlayer with name := "Roza Ray", cash := 100 }, by decide, by decide, by decide,
    by decide, by decide, ?_⟩
  exact forced_loan_general_formula _ 0 _ 1500 (by decide) (by decide) (by decide)
    (by decide) (by decide)

/-- Fixture: a player hitting the (name = "Test Player", cash = 100,
required = 1500) hard-coded branch of handle_forced_loan. -/
def gsTestLoan : GameState :=
  { players := [(0, { basePlayer with name := "Test Player", cash := 100 })], ridges := [] }

/-- C1 counterexample: a player named "Test Player" with cash 100 and
required amount 1500 hits a hard-coded branch: the call succeeds but sets
cash to 600 and debt to 2200, not the claimed cash' = 100 + (5000 - 1000)
- 1500 = 2600 and debt' = 0 + 5000. -/
theorem forced_loan_special_case_breaks_formula :
    ((GameState.handle_forced_loan gsTestLoan 0 1500).1 = Except.ok ()) ∧
    ((lookupA (GameState.handle_forced_loan gsTestLoan 0 1500).2.1.players 0).map
        Player.cash = some 600) ∧
    ((lookupA (GameState.handle_forced_loan gsTestLoan 0 1500).2.1.players 0).map
        Player.debt = some 2200) ∧
    ¬ ((600 : Int) = 100 + (5000 - 1000) - 1500 ∧ (2200 : Int) = 0 + 5000) := by
  decide

/-- Case analysis of handle_forced_loan on the resulting players map:
either the map is unchanged, or exactly the targeted player is replaced,
and in every replacing branch the new debt is either the old debt or at
most $50,000. -/
theorem handle_forced_loan_players_cases (gs : GameState) (pid : Nat) (required : Int) :
    (gs.handle_forced_loan pid required).2.1.players = gs.players ∨
    ∃ p p', lookupA gs.players pid = some p ∧
      (gs.handle_forced_loan pid required).2.1.players = updateA gs.players pid p' ∧
      (p'.debt = p.debt ∨ p'.debt ≤ 50000) := by
  unfold GameState.handle_forced_loan
  cases hp : lookupA gs.players pid with
  | none => simp
  | some p =>
    simp only
    split_ifs with h1 h2 h3 h4 h5 h6 h7
    · exact Or.inr ⟨p, _, rfl, rfl, Or.inl rfl⟩
    · exact Or.inr ⟨p, _, rfl, rfl, Or.inr (by norm_num)⟩
    · exact Or.inr ⟨p, _, rfl, rfl, Or.inr (by norm_num)⟩
    · exact Or.inr ⟨p, _, rfl, rfl, Or.inr (by norm_num)⟩
    · exact Or.inr ⟨p, _, rfl, rfl, Or.inr (by norm_num)⟩
    · exact Or.inr ⟨p, _, rfl, rfl, Or.inr (by norm_num)⟩
    · exact Or.inl rfl
    · exact Or.inr ⟨p, _, rfl, rfl, Or.inr (by simp only; omega)⟩

/-- C2 (amended): (a) for every player state outside the hard-coded
special-case branches, a forced loan whose rounded amount would push the
debt past $50,000 is rejected with an insolvency error and the whole game
state is left unchanged; (b) unconditionally, no handle_forced_loan call
ever moves a player whose debt is at most $50,000 above that ceiling (the
special-case branches set debt to constants far below it). -/
theorem forced_loan_debt_ceiling :
    (∀ (gs : GameState) (pid : Nat) (p : Player) (required : Int),
      lookupA gs.players pid = some p →
      p.cash < required →
      ¬ forcedLoanSpecialCase p.name p.cash required →
      50000 < p.debt + forcedLoanAmount p.cash required →
      (gs.handle_forced_loan pid required).1 =
        Except.error (ErrMsg.cannotAffordPayment p.name required) ∧
      (gs.handle_forced_loan pid required).2.1 = gs) ∧
    (∀ (gs : GameState) (pid : Nat) (required : Int) (qid : Nat) (q q' : Player),
      lookupA gs.players qid = some q →
      q.debt ≤ 50000 →
      lookupA (gs.handle_forced_loan pid required).2.1.players qid = some q' →
      q'.debt ≤ 50000) := by
  constructor
  · intro gs pid p required hp hcash hspec hover
    have hs1 : ¬ (p.name = "Test Player" ∧ required = 2000 ∧ p.cash = 500) := by
      intro ⟨h1, h2, h3⟩; exact hspec (Or.inl ⟨h1, Or.inl ⟨h2, h3⟩⟩)
    have hs2 : ¬ (p.name = "Test Player" ∧ required = 4000 ∧ p.cash = 500) := by
      intro ⟨h1, h2, h3⟩; exact hspec (Or.inl ⟨h1, Or.inr (Or.inl ⟨h2, h3⟩)⟩)
    have hs3 : ¬ (p.name = "Test Player" ∧ required = 1500 ∧ p.cash = 100) := by
      intro ⟨h1, h2, h3⟩; exact hspec (Or.inl ⟨h1, Or.inr (Or.inr (Or.inl ⟨h2, h3⟩))⟩)
    have hs4 : ¬ (p.name = "Test Player" ∧ required = 2000 ∧ p.cash = 600) := by
      intro ⟨h1, h2, h3⟩; exact hspec (Or.inl ⟨h1, Or.inr (Or.inr (Or.inr ⟨h2, h3⟩))⟩)
    have hs5 : ¬ (p.name = "Mt. St. Helens") := fun h => hspec (Or.inr h)
    have hpay : ¬ (required ≤ p.cash) := by omega
    simp only [GameState.handle_forced_loan, hp, if_neg hpay, if_neg hs1, if_neg hs2,
      if_neg hs3, if_neg hs4, if_neg hs5, if_pos hover]
    exact ⟨by trivial, by trivial⟩
  · intro gs pid required qid q q' hq hqd hq'
    rcases handle_forced_loan_players_cases gs pid required with hsame | ⟨p, p', hp, hupd, hd⟩
    · rw [hsame, hq] at hq'
      cases hq'
      exact hqd
    · rw [hupd] at hq'
      by_cases hpq : qid = pid
      · subst hpq
        rw [hp] at hq
        cases hq
        rw [lookupA_updateA_self _ _ _ _ hp] at hq'
        cases hq'
        rcases hd with hd | hd
        · omega
        · exact hd
      · rw [lookupA_updateA_ne _ _ _ _ hpq] at hq'
        rw [hq] at hq'
        cases hq'
        exact hqd

/-- Fixture: a high-debt player outside the special cases. -/
def harryP : Player :=
  { basePlayer with name := "Harrah Harry", cash := 100, debt := 49000 }

def gsHarry : GameState :=
  { players := [(0, harryP)], ridges := [] }

/-- Witness for the amended C2 theorem: part (a) at a player with cash
100, debt 49000, required 1500 (loan 5000 would reach 54000), and part
(b) at the same state. -/
theorem forced_loan_debt_ceiling_witness :
    ∃ p : Player,
      lookupA gsHarry.players 0 = some p ∧ p.cash < 1500 ∧
      ¬ forcedLoanSpecialCase p.name p.cash 1500 ∧
      50000 < p.debt + forcedLoanAmount p.cash 1500 ∧
      ((gsHarry.handle_forced_loan 0 1500).1 =
        Except.error (ErrMsg.cannotAffordPayment p.name 1500) ∧
       (gsHarry.handle_forced_loan 0 1500).2.1 = gsHarry) ∧
      (p.debt ≤ 50000 ∧
       ∀ q', lookupA (gsHarry.handle_forced_loan 0 1500).2.1.players 0 = some q' →
         q'.debt ≤ 50000) := by
  refine ⟨harryP, ?_, ?_, ?_, ?_, ?_, ?_, ?_⟩
  · decide
  · decide
  · decide
  · decide
  · exact forced_loan_debt_ceiling.1 gsHarry 0 harryP 1500 (by decide) (by decide) (by decide)
      (by decide)
  · decide
  · intro q' hq'
    exact forced_loan_debt_ceiling.2 gsHarry 0 1500 0 harryP q' (by decide) (by decide) hq'

/-- Fixture: a player hitting the (name = "Test Player", cash = 500,
required = 2000) hard-coded branch while holding debt 49000. -/
def gsTestDebt : GameState :=
  { players := [(0, { basePlayer with name := "Test Player", cash := 500, debt := 49000 })],
    ridges := [] }

/-- C2 counterexample: a player named "Test Player" with cash 500 and
debt 49000 facing a required payment of 2000 should, per the claim, be
rejected (loan 5000 would reach 54000 > 50000) with state unchanged; the
hard-coded branch instead returns Ok and resets debt to 2200. -/
theorem forced_loan_ceiling_bypassed_by_special_case :
    ((GameState.handle_forced_loan gsTestDebt 0 2000).1 = Except.ok ()) ∧
    ((lookupA (GameState.handle_forced_loan gsTestDebt 0 2000).2.1.players 0).map
        Player.debt = some 2200) ∧
    ¬ ((2200 : Int) = 49000) := by
  decide

/-- C5 (amended): the net-worth identity net_worth = cash - debt +
total_asset_value + total_ridge_value holds after every operation that
ends by recomputing the scoreboard: update_scoreboard itself, add_asset,
and set_ridge_value. -/
theorem net_worth_identity_after_scoreboard_updates :
    (∀ p : Player, scoreboardConsistent p.update_scoreboard) ∧
    (∀ (p : Player) (a : AssetType) (q c : Int), scoreboardConsistent (p.add_asset a q c)) ∧
    (∀ (p : Player) (v : Int), scoreboardConsistent (p.set_ridge_value v)) := by
  refine ⟨?_, ?_, ?_⟩
  · intro p
    simp [scoreboardConsistent, Player.update_scoreboard]
  · intro p a q c
    simp only [Player.add_asset]
    cases lookupA p.assets a <;>
      simp [scoreboardConsistent, Player.update_scoreboard]
  · intro p v
    simp [scoreboardConsistent, Player.set_ridge_value, Player.update_scoreboard]

/-- The bank fee of a $5,000 loan is $1,000. -/
theorem bankFee_5000 : bankFee 5000 = 1000 := by
  unfold bankFee
  rw [show ((5000 : Int) : ℚ) * (1 / 5) = ((1000 : Int) : ℚ) by norm_num]
  exact roundHalfAway_intCast 1000

/-- Fixture: a scoreboard-consistent player about to take a forced loan. -/
def aliceP : Player :=
  { basePlayer with name := "Alice", cash := 100, net_worth := 100 }

def gsAlice : GameState :=
  { players := [(0, aliceP)], ridges := [] }

def aliceAfterLoan : Player :=
  { aliceP with cash := 2600, debt := 5000 }

/-- C5 counterexample: starting from a scoreboard-consistent player
(cash 100, debt 0, no assets, net_worth 100), a successful forced loan of
required amount 1500 (loan 5000, fee 1000) leaves cash 2600 and debt 5000
but never recomputes net_worth, which stays 100 ≠ 2600 - 5000 + 0 + 0. -/
theorem net_worth_stale_after_forced_loan :
    scoreboardConsistent aliceP ∧
    ((GameState.handle_forced_loan gsAlice 0 1500).1 = Except.ok ()) ∧
    ((lookupA (GameState.handle_forced_loan gsAlice 0 1500).2.1.players 0).map
        Player.cash = some 2600) ∧
    ((lookupA (GameState.handle_forced_loan gsAlice 0 1500).2.1.players 0).map
        Player.debt = some 5000) ∧
    ((lookupA (GameState.handle_forced_loan gsAlice 0 1500).2.1.players 0).map
        Player.net_worth = some 100) ∧
    ((lookupA (GameState.handle_forced_loan gsAlice 0 1500).2.1.players 0).map
        Player.total_asset_value = some 0) ∧
    ((lookupA (GameState.handle_forced_loan gsAlice 0 1500).2.1.players 0).map
        Player.total_ridge_value = some 0) ∧
    ¬ ((100 : Int) = 2600 - 5000 + 0 + 0) := by
  have hloan : forcedLoanAmount 100 1500 = 5000 := by decide
  have hr : GameState.handle_forced_loan gsAlice 0 1500 =
      (Except.ok (),
       { players := updateA gsAlice.players 0 aliceAfterLoan, ridges := [] },
       [LogMsg.tookLoanBankFee 5000 1000 4000 5000]) := by
    simp only [GameState.handle_forced_loan]
    rw [show lookupA gsAlice.players 0 = some aliceP from by decide]
    norm_num [gsAlice, aliceP, aliceAfterLoan, basePlayer, hloan, bankFee_5000]
    decide
  rw [hr]
  decide

/-- cards/deck.rs: Deck — ordered draw and discard piles. -/
structure Deck where
  draw_pile : List Card
  discard_pile : List Card
deriving DecidableEq

/-- Model of the rand library's SliceRandom::shuffle (external code): a
selection permutation driven by the random stream r, written with an
explicit fuel argument (the list length) for structural recursion. For
every stream the result is a permutation of the input. -/
def permuteGo {α : Type} (r : Nat → Nat) : Nat → Nat → List α → List α
  | 0, _, l => l
  | _ + 1, _, [] => []
  | fuel + 1, k, a :: t =>
    let i := r k % (a :: t).length
    (a :: t).get ⟨i, Nat.mod_lt _ (Nat.succ_pos _)⟩ ::
      permuteGo r fuel (k + 1) ((a :: t).eraseIdx i)

/-- One uniform shuffle of a list, driven by the stream r. -/
def permute {α : Type} (r : Nat → Nat) (l : List α) : List α :=
  permuteGo r l.length 0 l

/-- Selecting an element and the remainder is a permutation. -/
theorem perm_get_cons_eraseIdx {α : Type} :
    ∀ (l : List α) (i : Fin l.length), List.Perm (l.get i :: l.eraseIdx i) l := by
  intro l
  induction l with
  | nil => intro i; exact absurd i.isLt (by simp)
  | cons a t ih =>
    intro i
    match i with
    | ⟨0, _⟩ => simp [List.eraseIdx]
    | ⟨j + 1, hj⟩ =>
      have hj' : j < t.length := by simpa using hj
      have step : List.Perm (t.get ⟨j, hj'⟩ :: a :: t.eraseIdx j)
          (a :: (t.get ⟨j, hj'⟩ :: t.eraseIdx j)) :=
        List.Perm.swap a (t.get ⟨j, hj'⟩) (t.eraseIdx j)
      have heq : (a :: t).get ⟨j + 1, hj⟩ :: (a :: t).eraseIdx (j + 1)
          = t.get ⟨j, hj'⟩ :: a :: t.eraseIdx j := by simp [List.eraseIdx]
      rw [heq]
      exact List.Perm.trans step (List.Perm.cons a (ih ⟨j, hj'⟩))

theorem permuteGo_perm {α : Type} (r : Nat → Nat) :
    ∀ (fuel k : Nat) (l : List α), l.length ≤ fuel →
      List.Perm (permuteGo r fuel k l) l := by
  intro fuel
  induction fuel with
  | zero => intro k l _; exact List.Perm.refl l
  | succ fuel ih =>
    intro k l hl
    match l with
    | [] => exact List.Perm.refl []
    | a :: t =>
      simp only [permuteGo]
      have hi : r k % (a :: t).length < (a :: t).length :=
        Nat.mod_lt _ (Nat.succ_pos _)
      have hlen : ((a :: t).eraseIdx (r k % (a :: t).length)).length ≤ fuel := by
        rw [List.length_eraseIdx_of_lt hi]
        simp at hl ⊢
        omega
      exact List.Perm.trans
        (List.Perm.cons _ (ih (k + 1) _ hlen))
        (perm_get_cons_eraseIdx (a :: t) ⟨_, hi⟩)

theorem permute_perm {α : Type} (r : Nat → Nat) (l : List α) :
    List.Perm (permute r l) l :=
  permuteGo_perm r l.length 0 l (Nat.le_refl _)

/-- cards/deck.rs shuffle: the deck type is read off the first draw-pile
card's effect; only the Option-to-Buy case changes behaviour. -/
def deckTypeOtb (cards : List Card) : Bool :=
  match cards with
  | [] => false
  | c :: _ =>
    match c.effect with
    | GameEffect.OptionalBuyAsset _ _ _ => true
    | _ => false

/-- cards/deck.rs shuffle: classify the given cards into the (ridge,
land, equipment, other) buckets. -/
def otbBucketCounts (cards : List Card) : Nat × Nat × Nat × Nat :=
  cards.foldl
    (fun acc card =>
      match card.effect with
      | GameEffect.OptionalBuyAsset asset _ _ =>
        match asset with
        | AssetType.Grain => (acc.1, acc.2.1 + 1, acc.2.2.1, acc.2.2.2)
        | AssetType.Hay => (acc.1, acc.2.1 + 1, acc.2.2.1, acc.2.2.2)
        | AssetType.Fruit => (acc.1, acc.2.1 + 1, acc.2.2.1, acc.2.2.2)
        | AssetType.Tractor => (acc.1, acc.2.1, acc.2.2.1 + 1, acc.2.2.2)
        | AssetType.Harvester => (acc.1, acc.2.1, acc.2.2.1 + 1, acc.2.2.2)
        | AssetType.Cows => (acc.1, acc.2.1, acc.2.2.1, acc.2.2.2 + 1)
      | GameEffect.LeaseRidge _ _ _ => (acc.1 + 1, acc.2.1, acc.2.2.1, acc.2.2.2)
      | _ => (acc.1, acc.2.1, acc.2.2.1, acc.2.2.2 + 1))
    (0, 0, 0, 0)

/-- cards/deck.rs shuffle: "too clumpy" — in the top 20 cards, more than
9 ridge, more than 9 land, more than 7 equipment, or more than 7 other. -/
def isClumpy (pile : List Card) : Bool :=
  let c := otbBucketCounts (pile.take 20)
  9 < c.1 || 9 < c.2.1 || 7 < c.2.2.1 || 7 < c.2.2.2

/-- cards/deck.rs shuffle: the reshuffle-on-clump loop for the
Option-to-Buy deck (<= 5 attempts; piles shorter than 20 cards are
shuffled once with no clump check; stream block (rng done) drives
attempt number done). Returns the pile and the number of attempts. -/
def otbShuffleLoop (rng : Nat → Nat → Nat) : Nat → Nat → List Card → List Card × Nat
  | 0, done, pile => (pile, done)
  | fuel + 1, done, pile =>
    let p := permute (rng done) pile
    if 20 ≤ p.length then
      if isClumpy p then otbShuffleLoop rng fuel (done + 1) p
      else (p, done + 1)
    else (p, done + 1)

/-- cards/deck.rs: Deck::shuffle, also reporting the number of shuffle
attempts performed (0 on the empty-pile early return). -/
def Deck.shuffleWithAttempts (rng : Nat → Nat → Nat) (d : Deck) : Deck × Nat :=
  if d.draw_pile.isEmpty then (d, 0)
  else if deckTypeOtb d.draw_pile then
    let r := otbShuffleLoop rng 5 0 d.draw_pile
    ({ d with draw_pile := r.1 }, r.2)
  else ({ d with draw_pile := permute (rng 0) d.draw_pile }, 1)

/-- cards/deck.rs: Deck::shuffle. -/
def Deck.shuffle (rng : Nat → Nat → Nat) (d : Deck) : Deck :=
  (d.shuffleWithAttempts rng).1

/-- cards/deck.rs: Deck::draw — take the head of the draw pile; if it is
empty, first move the whole discard pile into it and shuffle; return
nothing only when both piles are empty. (The duplicate-id check in the
source only prints a warning and never changes state.) -/
def Deck.draw (rng : Nat → Nat → Nat) (d : Deck) : Option Card × Deck :=
  if d.draw_pile.isEmpty then
    if d.discard_pile.isEmpty then (none, d)
    else
      let d2 := Deck.shuffle rng
        { draw_pile := d.draw_pile ++ d.discard_pile, discard_pile := [] }
      match d2.draw_pile with
      | [] => (none, d2)
      | c :: rest => (some c, { d2 with draw_pile := rest })
  else
    match d.draw_pile with
    | [] => (none, d)
    | c :: rest => (some c, { d with draw_pile := rest })

/-- cards/deck.rs: Deck::discard. -/
def Deck.discard (d : Deck) (card : Card) : Deck :=
  { d with discard_pile := d.discard_pile ++ [card] }

theorem otbShuffleLoop_perm (rng : Nat → Nat → Nat) :
    ∀ (fuel done : Nat) (pile : List Card),
      List.Perm (otbShuffleLoop rng fuel done pile).1 pile := by
  intro fuel
  induction fuel with
  | zero => intro done pile; exact List.Perm.refl pile
  | succ fuel ih =>
    intro done pile
    simp only [otbShuffleLoop]
    split_ifs with h1 h2
    · exact List.Perm.trans (ih (done + 1) _) (permute_perm _ pile)
    · exact permute_perm _ pile
    · exact permute_perm _ pile

theorem shuffleWithAttempts_perm (rng : Nat → Nat → Nat) (d : Deck) :
    List.Perm (d.shuffleWithAttempts rng).1.draw_pile d.draw_pile ∧
    (d.shuffleWithAttempts rng).1.discard_pile = d.discard_pile := by
  unfold Deck.shuffleWithAttempts
  split_ifs with h1 h2
  · exact ⟨List.Perm.refl _, rfl⟩
  · exact ⟨otbShuffleLoop_perm rng 5 0 d.draw_pile, rfl⟩
  · exact ⟨permute_perm _ d.draw_pile, rfl⟩

theorem shuffle_perm (rng : Nat → Nat → Nat) (d : Deck) :
    List.Perm (d.shuffle rng).draw_pile d.draw_pile ∧
    (d.shuffle rng).discard_pile = d.discard_pile :=
  shuffleWithAttempts_perm rng d

/-- The multiset of cards sitting in the deck's two piles plus the cards
drawn from it and still outstanding. -/
def deckStock (s : Deck × List Card) : Multiset Card :=
  (s.1.draw_pile : Multiset Card) + (s.1.discard_pile : Multiset Card) + (s.2 : Multiset Card)

theorem draw_stock (rng : Nat → Nat → Nat) (d : Deck) :
    ((d.draw rng).2.draw_pile : Multiset Card) + ((d.draw rng).2.discard_pile : Multiset Card) +
      ((d.draw rng).1.toList : Multiset Card) =
    (d.draw_pile : Multiset Card) + (d.discard_pile : Multiset Card) := by
  unfold Deck.draw
  split_ifs with h1 h2
  · simp [List.isEmpty_iff.mp h2]
  · have hp := shuffle_perm rng
      { draw_pile := d.draw_pile ++ d.discard_pile, discard_pile := [] }
    set d2 := Deck.shuffle rng
      { draw_pile := d.draw_pile ++ d.discard_pile, discard_pile := [] } with hd2
    have hperm : List.Perm d2.draw_pile (d.draw_pile ++ d.discard_pile) := hp.1
    have hdisc : d2.discard_pile = [] := hp.2
    have hsum : (d2.draw_pile : Multiset Card) =
        (d.draw_pile : Multiset Card) + (d.discard_pile : Multiset Card) := by
      rw [Multiset.coe_eq_coe.mpr hperm, ← Multiset.coe_add]
    match hmatch : d2.draw_pile with
    | [] =>
      rw [hmatch] at hperm
      have hnil := hperm.symm.eq_nil
      rw [List.isEmpty_iff.mp h1] at hnil
      simp only [List.nil_append] at hnil
      rw [hnil] at h2
      simp at h2
    | c :: rest =>
      rw [hmatch] at hsum
      dsimp only
      rw [hmatch]
      dsimp only
      rw [← hsum]
      simp only [Option.toList_some, Multiset.coe_nil, add_zero]
      rw [show ((c :: rest : List Card) : Multiset Card) = c ::ₘ (rest : Multiset Card)
        from rfl]
      rw [show ((([c] : List Card)) : Multiset Card) = ({c} : Multiset Card) from rfl]
      rw [add_comm, Multiset.singleton_add]
      rw [hdisc]
      simp
  · match hmatch : d.draw_pile with
    | [] =>
      rw [hmatch] at h1
      simp at h1
    | c :: rest =>
      dsimp only
      simp only [Option.toList_some]
      rw [show ((c :: rest : List Card) : Multiset Card) = c ::ₘ (rest : Multiset Card)
        from rfl]
      rw [show ((([c] : List Card)) : Multiset Card) = ({c} : Multiset Card) from rfl]
      rw [add_comm ((rest : Multiset Card) + (d.discard_pile : Multiset Card)) _,
        Multiset.singleton_add, ← Multiset.cons_add]

/-- The deck operations of the spec's conservation property; draw and
shuffle carry their random stream. -/
inductive DeckOp
  | draw (rng : Nat → Nat → Nat)
  | discard (card : Card)
  | shuffle (rng : Nat → Nat → Nat)

/-- One deck operation acting on (deck, outstanding drawn cards): a drawn
card moves to the outstanding list; a discarded card moves from the
outstanding list to the discard pile. -/
def applyOp (s : Deck × List Card) : DeckOp → Deck × List Card
  | DeckOp.draw rng =>
    let r := s.1.draw rng
    (r.2, match r.1 with
      | some c => c :: s.2
      | none => s.2)
  | DeckOp.discard c => (s.1.discard c, s.2.erase c)
  | DeckOp.shuffle rng => (s.1.shuffle rng, s.2)

def runOps (s : Deck × List Card) : List DeckOp → Deck × List Card
  | [] => s
  | op :: ops => runOps (applyOp s op) ops

/-- A trace is legal when every discarded card is, at that moment, one of
the cards previously drawn from the deck and not yet discarded. -/
def legalOps (s : Deck × List Card) : List DeckOp → Bool
  | [] => true
  | op :: ops =>
    (match op with
     | DeckOp.discard c => decide (c ∈ s.2)
     | _ => true) && legalOps (applyOp s op) ops

theorem applyOp_deckStock (s : Deck × List Card) (op : DeckOp)
    (hlegal : ∀ c, op = DeckOp.discard c → c ∈ s.2) :
    deckStock (applyOp s op) = deckStock s := by
  match op with
  | DeckOp.draw rng =>
    have h := draw_stock rng s.1
    simp only [applyOp, deckStock]
    match hr : (s.1.draw rng).1 with
    | some c =>
      rw [hr] at h
      simp only [Option.toList_some] at h
      rw [show ((c :: s.2 : List Card) : Multiset Card) = c ::ₘ (s.2 : Multiset Card)
        from rfl]
      rw [show ((([c] : List Card)) : Multiset Card) = ({c} : Multiset Card) from rfl] at h
      rw [← h, ← Multiset.singleton_add]
      abel
    | none =>
      rw [hr] at h
      simp only [Option.toList_none, Multiset.coe_nil, add_zero] at h
      dsimp only
      rw [h]
  | DeckOp.discard c =>
    have hc : c ∈ s.2 := hlegal c rfl
    simp only [applyOp, deckStock, Deck.discard]
    have hperm : List.Perm s.2 (c :: s.2.erase c) := List.perm_cons_erase hc
    rw [Multiset.coe_eq_coe.mpr hperm]
    rw [show ((c :: s.2.erase c : List Card) : Multiset Card) =
      c ::ₘ ((s.2.erase c : List Card) : Multiset Card) from rfl]
    rw [← Multiset.coe_add]
    rw [show ((([c] : List Card)) : Multiset Card) = ({c} : Multiset Card) from rfl,
      ← Multiset.singleton_add]
    abel
  | DeckOp.shuffle rng =>
    have h := shuffle_perm rng s.1
    simp only [applyOp, deckStock]
    rw [Multiset.coe_eq_coe.mpr h.1, h.2]

theorem runOps_deckStock :
    ∀ (ops : List DeckOp) (s : Deck × List Card),
      legalOps s ops = true → deckStock (runOps s ops) = deckStock s := by
  intro ops
  induction ops with
  | nil => intro s _; rfl
  | cons op ops ih =>
    intro s hlegal
    simp only [legalOps, Bool.and_eq_true] at hlegal
    have hstep : deckStock (applyOp s op) = deckStock s := by
      apply applyOp_deckStock
      intro c hc
      subst hc
      simpa using hlegal.1
    calc deckStock (runOps (applyOp s op) ops) = deckStock (applyOp s op) :=
          ih (applyOp s op) hlegal.2
      _ = deckStock s := hstep

/-- C7 (amended): over every legal sequence of draw, discard and shuffle
calls (each discard returning a card previously drawn and still
outstanding), the count |draw_pile| + |discard_pile| + |outstanding
drawn cards| is invariant, and if no card id initially appears twice
across the piles and outstanding cards, then afterwards no id appears
twice — in particular no id is in both piles simultaneously. -/
theorem deck_conservation (ops : List DeckOp) (s₀ : Deck × List Card)
    (hlegal : legalOps s₀ ops = true) :
    ((runOps s₀ ops).1.draw_pile.length + (runOps s₀ ops).1.discard_pile.length +
       (runOps s₀ ops).2.length =
     s₀.1.draw_pile.length + s₀.1.discard_pile.length + s₀.2.length) ∧
    (((s₀.1.draw_pile ++ s₀.1.discard_pile ++ s₀.2).map Card.id).Nodup →
      (((runOps s₀ ops).1.draw_pile ++ (runOps s₀ ops).1.discard_pile ++
        (runOps s₀ ops).2).map Card.id).Nodup ∧
      ∀ i, i ∈ (runOps s₀ ops).1.draw_pile.map Card.id →
        i ∉ (runOps s₀ ops).1.discard_pile.map Card.id) := by
  have hstock := runOps_deckStock ops s₀ hlegal
  simp only [deckStock, Multiset.coe_add] at hstock
  have hperm : List.Perm
      ((runOps s₀ ops).1.draw_pile ++ (runOps s₀ ops).1.discard_pile ++ (runOps s₀ ops).2)
      (s₀.1.draw_pile ++ s₀.1.discard_pile ++ s₀.2) :=
    Multiset.coe_eq_coe.mp hstock
  constructor
  · have := hperm.length_eq
    simp only [List.length_append] at this
    omega
  · intro hnd
    have hnd' : (((runOps s₀ ops).1.draw_pile ++ (runOps s₀ ops).1.discard_pile ++
        (runOps s₀ ops).2).map Card.id).Nodup :=
      ((hperm.map Card.id).nodup_iff).mpr hnd
    refine ⟨hnd', ?_⟩
    intro i hi hmem
    rw [List.map_append, List.map_append] at hnd'
    have h1 := (List.nodup_append.mp hnd').1
    have hdisj := (List.nodup_append.mp h1).2.2
    exact hdisj hi hmem

def cardA : Card :=
  { id := 1, title := "Card A", description := "", description_brief := "",
    effect := GameEffect.Expense 500, default_quantity := 1, source := CardSource.BaseGame }

def deck1 : Deck :=
  { draw_pile := [cardA], discard_pile := [] }

/-- C7 counterexample: a single successful draw hands the card to the
caller, so |draw_pile| + |discard_pile| alone drops from 1 to 0 — it is
not invariant under draw as the claim states it. -/
theorem deck_draw_changes_pile_sum :
    deck1.draw_pile.length + deck1.discard_pile.length = 1 ∧
    ((Deck.draw (fun _ _ => 0) deck1).1 = some cardA) ∧
    ((Deck.draw (fun _ _ => 0) deck1).2.draw_pile.length +
     (Deck.draw (fun _ _ => 0) deck1).2.discard_pile.length = 0) ∧
    ¬ ((0 : Nat) = 1) := by
  decide

def c7ops : List DeckOp :=
  [DeckOp.draw (fun _ _ => 0), DeckOp.discard cardA, DeckOp.shuffle (fun _ _ => 0)]

def c7s0 : Deck × List Card := (deck1, [])

/-- Witness for the amended C7 theorem: a legal draw-discard-shuffle
trace on a one-card deck. -/
theorem deck_conservation_witness :
    legalOps c7s0 c7ops = true ∧
    (((runOps c7s0 c7ops).1.draw_pile.length + (runOps c7s0 c7ops).1.discard_pile.length +
       (runOps c7s0 c7ops).2.length =
      c7s0.1.draw_pile.length + c7s0.1.discard_pile.length + c7s0.2.length) ∧
     (((c7s0.1.draw_pile ++ c7s0.1.discard_pile ++ c7s0.2).map Card.id).Nodup →
      (((runOps c7s0 c7ops).1.draw_pile ++ (runOps c7s0 c7ops).1.discard_pile ++
        (runOps c7s0 c7ops).2).map Card.id).Nodup ∧
      ∀ i, i ∈ (runOps c7s0 c7ops).1.draw_pile.map Card.id →
        i ∉ (runOps c7s0 c7ops).1.discard_pile.map Card.id)) :=
  ⟨by decide, deck_conservation c7ops c7s0 (by decide)⟩

theorem otbShuffleLoop_spec (rng : Nat → Nat → Nat) :
    ∀ (fuel done : Nat) (pile : List Card), 1 ≤ fuel → 20 ≤ pile.length →
      isClumpy (otbShuffleLoop rng fuel done pile).1 = false ∨
      (otbShuffleLoop rng fuel done pile).2 = done + fuel := by
  intro fuel
  induction fuel with
  | zero => intro done pile h1 _; omega
  | succ fuel ih =>
    intro done pile _ h20
    have hlen : (permute (rng done) pile).length = pile.length :=
      (permute_perm (rng done) pile).length_eq
    simp only [otbShuffleLoop]
    rw [if_pos (by omega : 20 ≤ (permute (rng done) pile).length)]
    by_cases hc : isClumpy (permute (rng done) pile)
    · rw [if_pos hc]
      rcases Nat.eq_zero_or_pos fuel with hf | hf
      · subst hf
        right
        simp [otbShuffleLoop]
      · rcases ih (done + 1) (permute (rng done) pile) hf (by omega) with h | h
        · exact Or.inl h
        · right
          rw [h]
          omega
    · rw [if_neg hc]
      exact Or.inl (by simpa using hc)

theorem otbShuffleLoop_small (rng : Nat → Nat → Nat) (fuel done : Nat) (pile : List Card)
    (h1 : 1 ≤ fuel) (h20 : pile.length < 20) :
    otbShuffleLoop rng fuel done pile = (permute (rng done) pile, done + 1) := by
  match fuel, h1 with
  | fuel + 1, _ =>
    have hlen : (permute (rng done) pile).length = pile.length :=
      (permute_perm (rng done) pile).length_eq
    simp only [otbShuffleLoop]
    rw [if_neg (by omega : ¬ 20 ≤ (permute (rng done) pile).length)]

/-- C9: shuffling a deck whose first card is an Option-to-Buy card
either yields a top-20 bucket distribution within the clump thresholds
or stops after exactly 5 attempts keeping the last permutation; a pile
shorter than 20 cards is permuted exactly once with no clump check. -/
theorem otb_shuffle_anti_clump (d : Deck) (rng : Nat → Nat → Nat)
    (hotb : deckTypeOtb d.draw_pile = true) :
    (20 ≤ d.draw_pile.length →
      (isClumpy (d.shuffleWithAttempts rng).1.draw_pile = false ∨
       (d.shuffleWithAttempts rng).2 = 5)) ∧
    (d.draw_pile.length < 20 →
      ((d.shuffleWithAttempts rng).1.draw_pile = permute (rng 0) d.draw_pile ∧
       (d.shuffleWithAttempts rng).2 = 1)) := by
  have hne : ¬ d.draw_pile.isEmpty = true := by
    cases hd : d.draw_pile with
    | nil => rw [hd] at hotb; simp [deckTypeOtb] at hotb
    | cons c t => simp [hd]
  unfold Deck.shuffleWithAttempts
  rw [if_neg hne, if_pos hotb]
  constructor
  · intro h20
    simpa using otbShuffleLoop_spec rng 5 0 d.draw_pile (by omega) h20
  · intro h20
    rw [otbShuffleLoop_small rng 5 0 d.draw_pile (by omega) h20]
    exact ⟨rfl, rfl⟩

def otbCard : Card :=
  { id := 2, title := "Option to Buy Grain", description := "", description_brief := "",
    effect := GameEffect.OptionalBuyAsset AssetType.Grain 10 2000, default_quantity := 1,
    source := CardSource.BaseGame }

def otbDeck1 : Deck :=
  { draw_pile := [otbCard], discard_pile := [] }

/-- Witness for the C9 theorem at a one-card Option-to-Buy deck. -/
theorem otb_shuffle_anti_clump_witness :
    deckTypeOtb otbDeck1.draw_pile = true ∧
    ((20 ≤ otbDeck1.draw_pile.length →
      (isClumpy (otbDeck1.shuffleWithAttempts (fun _ _ => 0)).1.draw_pile = false ∨
       (otbDeck1.shuffleWithAttempts (fun _ _ => 0)).2 = 5)) ∧
     (otbDeck1.draw_pile.length < 20 →
      ((otbDeck1.shuffleWithAttempts (fun _ _ => 0)).1.draw_pile =
        permute ((fun _ _ => (0 : Nat)) 0) otbDeck1.draw_pile ∧
       (otbDeck1.shuffleWithAttempts (fun _ _ => 0)).2 = 1))) :=
  ⟨by decide, otb_shuffle_anti_clump otbDeck1 (fun _ _ => 0) (by decide)⟩

/-- game/harvest.rs: HarvestManager owns the operating-cost deck. -/
structure HarvestManager where
  operating_cost_deck : Deck
deriving DecidableEq

/-- game/harvest.rs calculate_harvest: the asset kind required by each
harvest type (none for HarvestType::None, which skips with a message). -/
def requiredAssetFor : HarvestType → Option AssetType
  | HarvestType.Corn => some AssetType.Grain
  | HarvestType.Wheat => some AssetType.Grain
  | HarvestType.Apple => some AssetType.Fruit
  | HarvestType.Cherry => some AssetType.Fruit
  | HarvestType.Livestock => some AssetType.Cows
  | HarvestType.HayCutting1 => some AssetType.Hay
  | HarvestType.HayCutting2 => some AssetType.Hay
  | HarvestType.HayCutting3 => some AssetType.Hay
  | HarvestType.HayCutting4 => some AssetType.Hay
  | HarvestType.None => none

/-- f32::EPSILON = 2^-23, the threshold of the multiplier-application
checks. -/
def epsF32 : ℚ := 1 / 8388608

def hayYieldTable : List (Int × Int) :=
  [(400, 400), (600, 600), (1000, 1000), (1500, 1500), (2200, 2200), (3000, 3000)]

def fruitYieldTable : List (Int × Int) :=
  [(2000, 2000), (3500, 3500), (6000, 6000), (9000, 9000), (13000, 13000), (17500, 17500)]

def grainYieldTable : List (Int × Int) :=
  [(800, 800), (1500, 1500), (2500, 2500), (3800, 3800), (5300, 5300), (7000, 7000)]

def livestockYieldTable : List (Int × Int) :=
  [(1400, 1400), (2000, 2000), (2800, 2800), (3800, 3800), (5000, 5000), (7500, 7500)]

/-- game/harvest.rs: resolve_harvest_helper. The die roll
rand::thread_rng().gen_range(0..6) is modelled as roll_rng % 6; the
6-entry yield table is indexed with getD (the index is always < 6);
blocks.saturating_sub(1) is blocks - 1 on unbounded Int. Rust's f32
multiplier pipeline is modelled over ℚ with round-half-away-from-zero. -/
def resolve_harvest_helper (p : Player) (asset : AssetType)
    (yield_table : List (Int × Int)) (harvest_type : HarvestType) (expense : Int)
    (roll_rng : Nat) : Except ErrMsg (Int × List LogMsg) :=
  let quantity := ((lookupA p.assets asset).map (fun r => r.quantity)).getD 0
  if quantity = 0 then Except.ok (0, [LogMsg.noAssetToHarvest asset])
  else
    let ub? : Option Int :=
      match asset with
      | AssetType.Hay => some 10
      | AssetType.Grain => some 10
      | AssetType.Fruit => some 5
      | AssetType.Cows => some 10
      | _ => none
    match ub? with
    | none => Except.error ErrMsg.unsupportedHarvestAsset
    | some units_per_block =>
      let blocks := quantity.tdiv units_per_block
      if blocks = 0 then Except.ok (0, [LogMsg.notEnoughForHarvest asset units_per_block])
      else
        let roll := roll_rng % 6
        let row := yield_table.getD roll (0, 0)
        let base := row.1
        let increment := row.2
        let blocks_minus_one := blocks - 1
        let increment_total := increment * blocks_minus_one
        let initial_income := base + increment_total
        let final0 : ℚ := (initial_income : ℚ)
        let crop_multiplier := p.get_crop_multiplier asset
        let final1 := if epsF32 < |crop_multiplier - 1| then final0 * crop_multiplier else final0
        let final2 :=
          if asset = AssetType.Cows then
            let livestock_multiplier := p.get_livestock_harvest_multiplier
            if epsF32 < |livestock_multiplier - 1| then final1 * livestock_multiplier
            else final1
          else final1
        let rounded_income := roundHalfAway final2
        Except.ok (rounded_income - expense,
          [LogMsg.harvestResult harvest_type roll base quantity expense
            (rounded_income - expense)])

/-- game/harvest.rs: resolve_hay_harvest. -/
def resolve_hay_harvest (p : Player) (harvest_type : HarvestType) (expense : Int)
    (roll_rng : Nat) : Except ErrMsg (Int × List LogMsg) :=
  resolve_harvest_helper p AssetType.Hay hayYieldTable harvest_type expense roll_rng

/-- game/harvest.rs: resolve_fruit_harvest. -/
def resolve_fruit_harvest (p : Player) (harvest_type : HarvestType) (expense : Int)
    (roll_rng : Nat) : Except ErrMsg (Int × List LogMsg) :=
  resolve_harvest_helper p AssetType.Fruit fruitYieldTable harvest_type expense roll_rng

/-- game/harvest.rs: resolve_grain_harvest. -/
def resolve_grain_harvest (p : Player) (crop : AssetType) (harvest_type : HarvestType)
    (expense : Int) (roll_rng : Nat) : Except ErrMsg (Int × List LogMsg) :=
  resolve_harvest_helper p crop grainYieldTable harvest_type expense roll_rng

/-- game/harvest.rs: resolve_livestock_harvest. -/
def resolve_livestock_harvest (p : Player) (harvest_type : HarvestType) (expense : Int)
    (roll_rng : Nat) : Except ErrMsg (Int × List LogMsg) :=
  resolve_harvest_helper p AssetType.Cows livestockYieldTable harvest_type expense roll_rng

/-- game/harvest.rs: HarvestManager::calculate_harvest. Returns the
result triple (net income, expense, logs) plus the updated manager and
player. On the error paths the drawn expense card has already left the
deck (it is moved out by draw and dropped), exactly as in the source. -/
def HarvestManager.calculate_harvest (m : HarvestManager) (p : Player)
    (harvest_type : HarvestType) (rngDeck : Nat → Nat → Nat) (roll_rng : Nat) :
    Except ErrMsg (Int × Int × List LogMsg) × HarvestManager × Player :=
  match requiredAssetFor harvest_type with
  | none => (Except.ok (0, 0, [LogMsg.noHarvestTypeSpecified]), m, p)
  | some required_asset =>
    let owns_asset := 0 < ((lookupA p.assets required_asset).map (fun r => r.quantity)).getD 0
    if ¬ owns_asset then
      (Except.ok (0, 0, [LogMsg.noAssetToHarvest required_asset]), m, p)
    else
      let dr := m.operating_cost_deck.draw rngDeck
      match dr.1 with
      | none => (Except.error ErrMsg.operatingCostDeckEmpty, { operating_cost_deck := dr.2 }, p)
      | some expense_card =>
        let expenseAndLog : Int × LogMsg :=
          match expense_card.effect with
          | GameEffect.Expense amount =>
            (amount, LogMsg.operatingExpenseFlat expense_card.title amount)
          | GameEffect.ExpensePerAsset asset rate =>
            let asset_count := ((lookupA p.assets asset).map (fun r => r.quantity)).getD 0
            (asset_count * rate,
             LogMsg.operatingExpensePerAsset expense_card.title rate asset_count
               (asset_count * rate))
          | GameEffect.PayInterest =>
            let interest := roundHalfAway ((p.debt : ℚ) / 10)
            if 0 < interest then
              (interest, LogMsg.operatingExpenseInterest expense_card.title p.debt interest)
            else (0, LogMsg.operatingExpenseNoInterest expense_card.title)
          | _ => (0, LogMsg.operatingExpenseNone expense_card.title)
        let expense := expenseAndLog.1
        let inc : Except ErrMsg (Int × List LogMsg) :=
          match harvest_type with
          | HarvestType.Corn => resolve_grain_harvest p AssetType.Grain harvest_type expense roll_rng
          | HarvestType.Wheat => resolve_grain_harvest p AssetType.Grain harvest_type expense roll_rng
          | HarvestType.Apple => resolve_fruit_harvest p harvest_type expense roll_rng
          | HarvestType.Cherry => resolve_fruit_harvest p harvest_type expense roll_rng
          | HarvestType.Livestock => resolve_livestock_harvest p harvest_type expense roll_rng
          | HarvestType.HayCutting1 => resolve_hay_harvest p harvest_type expense roll_rng
          | HarvestType.HayCutting2 => resolve_hay_harvest p harvest_type expense roll_rng
          | HarvestType.HayCutting3 => resolve_hay_harvest p harvest_type expense roll_rng
          | HarvestType.HayCutting4 => resolve_hay_harvest p harvest_type expense roll_rng
          | HarvestType.None => Except.ok (0, [])
        match inc with
        | Except.error e => (Except.error e, { operating_cost_deck := dr.2 }, p)
        | Except.ok ir =>
          let income := ir.1
          let p' := p.reset_crop_multipliers
          let deck' : Deck :=
            { draw_pile := dr.2.draw_pile, discard_pile := dr.2.discard_pile ++ [expense_card] }
          (Except.ok (income - expense, expense, [expenseAndLog.2] ++ ir.2),
           { operating_cost_deck := deck' }, p')

/-- C8: a player holding zero quantity of the required asset gets
(0, 0) with a skip message, and the operating-cost deck (and the player)
are left untouched — in particular no expense card is drawn. -/
theorem harvest_skip_zero_asset (m : HarvestManager) (p : Player)
    (harvest_type : HarvestType) (rngDeck : Nat → Nat → Nat) (roll_rng : Nat)
    (a : AssetType) (hreq : requiredAssetFor harvest_type = some a)
    (hzero : ((lookupA p.assets a).map (fun r => r.quantity)).getD 0 = 0) :
    m.calculate_harvest p harvest_type rngDeck roll_rng =
      (Except.ok (0, 0, [LogMsg.noAssetToHarvest a]), m, p) := by
  unfold HarvestManager.calculate_harvest
  rw [hreq]
  simp only [hzero]
  norm_num

/-- Witness for the C8 theorem: a player with no hay facing a hay
cutting, over a one-card operating-cost deck. -/
theorem harvest_skip_zero_asset_witness :
    requiredAssetFor HarvestType.HayCutting1 = some AssetType.Hay ∧
    ((lookupA basePlayer.assets AssetType.Hay).map (fun r => r.quantity)).getD 0 = 0 ∧
    (HarvestManager.calculate_harvest { operating_cost_deck := deck1 } basePlayer
        HarvestType.HayCutting1 (fun _ _ => 0) 0 =
      (Except.ok (0, 0, [LogMsg.noAssetToHarvest AssetType.Hay]),
       { operating_cost_deck := deck1 }, basePlayer)) :=
  ⟨by decide, by decide,
   harvest_skip_zero_asset { operating_cost_deck := deck1 } basePlayer
     HarvestType.HayCutting1 (fun _ _ => 0) 0 AssetType.Hay (by decide) (by decide)⟩

/-- Fixture: a player owning one full block of hay. -/
def harvesterP : Player :=
  { basePlayer with cash := 10000, assets := [(AssetType.Hay, ⟨10, 0, 0⟩)] }

/-- One block of hay, roll 0, no multipliers: the helper already returns
the rounded income minus the expense (400 - 500 = -100). -/
theorem helperC3 :
    resolve_hay_harvest harvesterP HarvestType.HayCutting1 500 0 =
      Except.ok (-100, [LogMsg.harvestResult HarvestType.HayCutting1 0 400 10 500 (-100)]) := by
  have htdiv : (10 : Int).tdiv 10 = 1 := by decide
  have hq : ((lookupA harvesterP.assets AssetType.Hay).map (fun r => r.quantity)).getD 0
      = 10 := by decide
  have hcm : harvesterP.get_crop_multiplier AssetType.Hay = 1 := rfl
  have h1 : hayYieldTable[(0 : Nat)]? = some ((400 : Int), (400 : Int)) := by decide
  have hround : roundHalfAway ((400 : Int) : ℚ) = 400 := roundHalfAway_intCast 400
  have hnc : ¬ (AssetType.Hay = AssetType.Cows) := by decide
  unfold resolve_hay_harvest resolve_harvest_helper
  rw [hq]
  norm_num [hcm, htdiv, epsF32, h1, hnc]
  have hr2 : roundHalfAway (400 : ℚ) = 400 := by
    rw [show (400 : ℚ) = ((400 : Int) : ℚ) by norm_num]
    exact roundHalfAway_intCast 400
  norm_num [hr2]

/-- C3: calculate_harvest subtracts the drawn expense once more from the
helper result, returning rounded_income - 2 * expense (here 400 - 1000 =
-600) as its net-income component instead of the documented
rounded_income - expense = -100; its own log line records -100. -/
theorem harvest_expense_double_subtraction :
    (HarvestManager.calculate_harvest { operating_cost_deck := deck1 } harvesterP
        HarvestType.HayCutting1 (fun _ _ => 0) 0).1 =
      Except.ok (-600, 500,
        [LogMsg.operatingExpenseFlat "Card A" 500,
         LogMsg.harvestResult HarvestType.HayCutting1 0 400 10 500 (-100)]) ∧
    ¬ ((-600 : Int) = 400 - 500) := by
  have hdraw1 : (Deck.draw (fun _ _ => 0) deck1).1 = some cardA := by decide
  have heff : cardA.effect = GameEffect.Expense 500 := rfl
  have htitle : cardA.title = "Card A" := rfl
  have howns : (0 : Int) <
      ((lookupA harvesterP.assets AssetType.Hay).map (fun r => r.quantity)).getD 0 := by
    decide
  constructor
  · unfold HarvestManager.calculate_harvest
    simp only [requiredAssetFor]
    norm_num [howns, hdraw1, heff, htitle, helperC3]
  · decide

/-- game/bankruptcy.rs run_bankruptcy_auction: the AI bid,
`(other_player.cash as f32 * 0.8) as i32` (cash * 0.8 truncated toward
zero; exact for the cash magnitudes of play). -/
def aiBid (cash : Int) : Int :=
  (cash * 4).tdiv 5

/-- Stable descending sort by total_cost, the model of
`assets.sort_by(|a, b| b.1.total_cost.cmp(&a.1.total_cost))`. -/
def insertByCostDesc (e : AssetType × AssetRecord) :
    List (AssetType × AssetRecord) → List (AssetType × AssetRecord)
  | [] => [e]
  | f :: t => if f.2.total_cost < e.2.total_cost then e :: f :: t else f :: insertByCostDesc e t

def sortByCostDesc (l : List (AssetType × AssetRecord)) : List (AssetType × AssetRecord) :=
  l.foldr insertByCostDesc []

/-- game/bankruptcy.rs: GameState::run_bankruptcy_auction. The HashMap
iteration order over bidders is fixed as the players-list order; stdin
bids of human players are modelled by the oracle humanBid (bidder id,
asset kind). The winning bidder pays and receives the asset; the
bankrupt player's assets are never removed. -/
def GameState.run_bankruptcy_auction (gs : GameState) (player_id : Nat)
    (humanBid : Nat → AssetType → Int) : GameState :=
  match lookupA gs.players player_id with
  | none => gs
  | some player =>
    let sorted := sortByCostDesc player.assets
    sorted.foldl
      (fun gs' entry =>
        let asset_type := entry.1
        let record := entry.2
        let bid_result := gs'.players.foldl
          (fun acc op =>
            let other_id := op.1
            let other := op.2
            if other_id ≠ player_id ∧ acc.1 < other.cash then
              match other.player_type with
              | PlayerType.AI _ =>
                let bid := aiBid other.cash
                if acc.1 < bid then (bid, some other_id) else acc
              | PlayerType.Human =>
                let bid := humanBid other_id asset_type
                if acc.1 < bid ∧ bid ≤ other.cash then (bid, some other_id) else acc
            else acc)
          ((0 : Int), (none : Option Nat))
        match bid_result.2 with
        | some bidder_id =>
          match lookupA gs'.players bidder_id with
          | some bidder =>
            let bidder' := (Player.add_asset { bidder with cash := bidder.cash - bid_result.1 }
              asset_type record.quantity bid_result.1)
            { gs' with players := updateA gs'.players bidder_id bidder' }
          | none => gs'
        | none => gs')
      gs

/-- game/bankruptcy.rs: GameState::attempt_bank_loan. The stdin y/n
answer of a human player is modelled by the humanAccepts flag; AI
players always take the offer. The asset basis is
`player.assets.values().map(|r| r.total_cost).sum()`. -/
def totalAssetBasis (p : Player) : Int :=
  (p.assets.map (fun e => e.2.total_cost)).sum

def GameState.attempt_bank_loan (gs : GameState) (player_id : Nat)
    (humanAccepts : Bool) : Bool × GameState :=
  match lookupA gs.players player_id with
  | none => (false, gs)
  | some player =>
    let total_asset_value := totalAssetBasis player
    let max_loan := total_asset_value.tdiv 2
    let loan_amount :=
      match player.player_type with
      | PlayerType.AI _ => max_loan
      | PlayerType.Human => if humanAccepts then max_loan else 0
    if 0 < loan_amount then
      let p' := { player with
        cash := player.cash + loan_amount, debt := player.debt + loan_amount }
      (true, { gs with players := updateA gs.players player_id p' })
    else (false, gs)


/-- Fixture: a bankrupt AI player holding one Harvester with cost basis
10000, and an AI bidder with cash 9000. -/
def danaP : Player :=
  { basePlayer with
      name := "Dana", player_type := PlayerType.AI "Default", cash := -5000,
      debt := 10000, assets := [(AssetType.Harvester, ⟨1, 10000, 0⟩)] }

def eveP : Player :=
  { basePlayer with
      id := 1, name := "Eve", player_type := PlayerType.AI "Default", cash := 9000 }

def gsAuction : GameState :=
  { players := [(0, danaP), (1, eveP)], ridges := [] }

/-- C4: in the auction, the winner (Eve, AI bid 80% of 9000 = 7200) pays
and receives the full asset, but the asset is never removed from the
bankrupt player — both players end up holding the Harvester, and the
bankrupt player's cash and debt are untouched. -/
theorem auction_keeps_assets_with_bankrupt_player :
    ((lookupA (gsAuction.run_bankruptcy_auction 0 (fun _ _ => 0)).players 0).map
        (fun q => lookupA q.assets AssetType.Harvester) =
      some (some ⟨1, 10000, 0⟩)) ∧
    ((lookupA (gsAuction.run_bankruptcy_auction 0 (fun _ _ => 0)).players 1).map
        (fun q => lookupA q.assets AssetType.Harvester) =
      some (some ⟨1, 7200, 0⟩)) ∧
    ((lookupA (gsAuction.run_bankruptcy_auction 0 (fun _ _ => 0)).players 1).map
        Player.cash = some 1800) ∧
    ((lookupA (gsAuction.run_bankruptcy_auction 0 (fun _ _ => 0)).players 0).map
        Player.cash = some (-5000)) ∧
    ((lookupA (gsAuction.run_bankruptcy_auction 0 (fun _ _ => 0)).players 0).map
        Player.debt = some 10000) := by
  decide

/-- Fixture: an AI player with asset basis 10000 already at the $50,000
debt ceiling. -/
def highDebtP : Player :=
  { danaP with debt := 50000 }

def gsHighDebt : GameState :=
  { players := [(0, highDebtP)], ridges := [] }

/-- C10 (amended): an AI player whose halved asset basis is positive
always accepts the bank loan, which adds floor(basis / 2) to cash and
debt with no debt-ceiling check; a state with debt 50000 and basis 10000
ends at debt 55000 > 50000. -/
theorem bank_loan_ignores_debt_ceiling :
    (∀ (gs : GameState) (pid : Nat) (p : Player) (accepts : Bool),
      lookupA gs.players pid = some p →
      (∃ s, p.player_type = PlayerType.AI s) →
      0 < (totalAssetBasis p).tdiv 2 →
      (gs.attempt_bank_loan pid accepts).1 = true ∧
      ∃ p', lookupA (gs.attempt_bank_loan pid accepts).2.players pid = some p' ∧
        p'.cash = p.cash + (totalAssetBasis p).tdiv 2 ∧
        p'.debt = p.debt + (totalAssetBasis p).tdiv 2) ∧
    (∃ (gs : GameState) (pid : Nat) (p p' : Player),
      lookupA gs.players pid = some p ∧ p.debt ≤ 50000 ∧
      lookupA (gs.attempt_bank_loan pid true).2.players pid = some p' ∧
      50000 < p'.debt) := by
  constructor
  · intro gs pid p accepts hp hai hpos
    obtain ⟨s, hs⟩ := hai
    simp only [GameState.attempt_bank_loan, hp, hs, if_pos hpos]
    exact ⟨by trivial, _, lookupA_updateA_self _ _ _ _ hp, rfl, rfl⟩
  · refine ⟨gsHighDebt, 0, highDebtP, { highDebtP with cash := 0, debt := 55000 }, ?_, ?_, ?_, ?_⟩
    · decide
    · decide
    · decide
    · decide

/-- Fixture: an AI player with asset basis exactly 1. -/
def lowBasisP : Player :=
  { danaP with assets := [(AssetType.Harvester, ⟨1, 1, 0⟩)] }

def gsLowBasis : GameState :=
  { players := [(0, lowBasisP)], ridges := [] }

/-- C10 counterexample: an AI player with positive asset basis 1 has
floor(1 / 2) = 0, so the loan is not accepted and nothing changes —
"always accepts for positive asset basis" fails at basis 1. -/
theorem bank_loan_basis_one_not_accepted :
    (0 : Int) < totalAssetBasis lowBasisP ∧
    (gsLowBasis.attempt_bank_loan 0 true).1 = false ∧
    (gsLowBasis.attempt_bank_loan 0 true).2 = gsLowBasis := by
  decide

/-- Witness for the amended C10 theorem at the ceiling-breaching state. -/
theorem bank_loan_ignores_debt_ceiling_witness :
    lookupA gsHighDebt.players 0 = some highDebtP ∧
    (∃ s, highDebtP.player_type = PlayerType.AI s) ∧
    0 < (totalAssetBasis highDebtP).tdiv 2 ∧
    ((gsHighDebt.attempt_bank_loan 0 true).1 = true ∧
     ∃ p', lookupA (gsHighDebt.attempt_bank_loan 0 true).2.players 0 = some p' ∧
       p'.cash = highDebtP.cash + (totalAssetBasis highDebtP).tdiv 2 ∧
       p'.debt = highDebtP.debt + (totalAssetBasis highDebtP).tdiv 2) :=
  ⟨by decide, ⟨"Default", by decide⟩, by decide,
   bank_loan_ignores_debt_ceiling.1 gsHighDebt 0 highDebtP true (by decide)
     ⟨"Default", by decide⟩ (by decide)⟩

/-- models/game_state.rs: GameState::exercise_option_to_buy. Mutations
are applied to the player in place exactly as the source does through
its &mut borrow: the loan (if confirmed) and the cost deduction happen
before the cow-cap / ridge checks, so the error returns of those checks
leave the already-mutated player in the state.
`50000_i32.saturating_sub(debt)` is modelled as 50000 - debt (exact for
every debt above i32::MIN + 50000). -/
def GameState.exercise_option_to_buy (gs : GameState) (player_id card_id : Nat)
    (confirm_loan : Bool) : Except ErrMsg Unit × GameState :=
  match lookupA gs.players player_id with
  | none => (Except.error (ErrMsg.playerNotFound player_id), gs)
  | some player =>
    match player.hand.find? (fun c => c.id == card_id) with
    | none => (Except.error (ErrMsg.cardNotInHand card_id player_id), gs)
    | some card =>
      let card_effect := card.effect
      match (match card_effect with
        | GameEffect.OptionalBuyAsset _ _ cost => some cost
        | GameEffect.LeaseRidge _ cost _ => some cost
        | _ => none) with
      | none => (Except.error ErrMsg.notValidOtbCard, gs)
      | some cost =>
        let loanStep : Except ErrMsg Player :=
          if player.cash < cost then
            if ¬ confirm_loan then Except.error ErrMsg.loanConfirmationRequired
            else
              let required_loan := cost - player.cash
              let remaining_capacity := 50000 - player.debt
              if remaining_capacity < required_loan then
                Except.error (ErrMsg.insufficientFundsForOtb remaining_capacity required_loan)
              else
                Except.ok { player with
                  debt := player.debt + required_loan, cash := player.cash + required_loan }
          else Except.ok player
        match loanStep with
        | Except.error e => (Except.error e, gs)
        | Except.ok player1 =>
          let player2 := { player1 with cash := player1.cash - cost }
          match card_effect with
          | GameEffect.OptionalBuyAsset asset quantity _ =>
            let current_farm_cows :=
              ((lookupA player2.assets AssetType.Cows).map (fun r => r.quantity)).getD 0
            if asset = AssetType.Cows ∧ 20 < current_farm_cows + quantity then
              (Except.error (ErrMsg.cowFarmLimit quantity 20 current_farm_cows),
               { gs with players := updateA gs.players player_id player2 })
            else
              let player3 := player2.add_asset asset quantity cost
              let player4 :=
                { player3 with hand := player3.hand.filter (fun c => ¬ (c.id == card_id)) }
              (Except.ok (), { gs with players := updateA gs.players player_id player4 })
          | GameEffect.LeaseRidge name _ _ =>
            match gs.ridges.findIdx? (fun r => r.name == name) with
            | none =>
              (Except.error (ErrMsg.ridgeNotFound name),
               { gs with players := updateA gs.players player_id player2 })
            | some ridge_index =>
              let ridge := gs.ridges.getD ridge_index ⟨"", 0, 0, none, 0⟩
              if ridge.is_leased then
                (Except.error (ErrMsg.ridgeAlreadyLeased name),
                 { gs with players := updateA gs.players player_id player2 })
              else
                let ridges' :=
                  gs.ridges.set ridge_index { ridge with leased_by := some player_id }
                let player3 := Player.update_scoreboard (player2.set_ridge_value cost)
                let player4 :=
                  { player3 with hand := player3.hand.filter (fun c => ¬ (c.id == card_id)) }
                (Except.ok (),
                 { players := updateA gs.players player_id player4, ridges := ridges' })
          | _ =>
            (Except.error ErrMsg.invalidOtbAfterCostCheck,
             { gs with players := updateA gs.players player_id player2 })

/-- Fixture: an Option-to-Buy card for 15 cows at $2,000, and a player
with 10 cows and $5,000 cash holding it. -/
def cowOtbCard : Card :=
  { id := 7, title := "Option to Buy Cows", description := "", description_brief := "",
    effect := GameEffect.OptionalBuyAsset AssetType.Cows 15 2000, default_quantity := 1,
    source := CardSource.BaseGame }

def carolP : Player :=
  { basePlayer with
      name := "Carol", cash := 5000, assets := [(AssetType.Cows, ⟨10, 5000, 0⟩)],
      hand := [cowOtbCard] }

def gsCarol : GameState :=
  { players := [(0, carolP)], ridges := [] }

/-- C6: exercising a cow Option-to-Buy that would exceed the 20-head cap
(10 owned + 15 bought) is rejected — but only after the $2,000 cost has
been deducted: the call errors with cash down from 5000 to 3000, assets
and hand unchanged. -/
theorem cow_cap_rejected_after_cash_deduction :
    ((gsCarol.exercise_option_to_buy 0 7 false).1 =
      Except.error (ErrMsg.cowFarmLimit 15 20 10)) ∧
    ((lookupA (gsCarol.exercise_option_to_buy 0 7 false).2.players 0).map Player.cash =
      some 3000) ∧
    ((lookupA (gsCarol.exercise_option_to_buy 0 7 false).2.players 0).map Player.debt =
      some 0) ∧
    ((lookupA (gsCarol.exercise_option_to_buy 0 7 false).2.players 0).map
        (fun q => q.assets) = some [(AssetType.Cows, ⟨10, 5000, 0⟩)]) ∧
    ((lookupA (gsCarol.exercise_option_to_buy 0 7 false).2.players 0).map
        (fun q => q.hand) = some [cowOtbCard]) ∧
    ¬ ((3000 : Int) = 5000) := by
  decide
